import Mathlib

/-!
Shallow embedding of the KAIROS intent-resolution engine
(`src/nlu_engine.py`, class `NluEngine`, plus the intent data model of
`src/models.py` and the macro table of `src/action_manager.py`), together
with theorems settling the specification claims about it.

Python floats are modelled as `ℚ` (the engine only compares and subtracts
scores and timestamps), Python dicts as association lists, `None`-able
values as `Option`, and the raisable paths of `process` as `Except String`.
The external encoder (sentence-transformers), the spaCy NER service and the
regex-based WhatsApp slot extractor are modelled as components of an
environment record: their outputs are inputs of the embedding, exactly as
the engine consumes them.
-/

namespace Kairos

/-- Containment of one character list in another, by scanning. -/
def seqContains (needle hay : List Char) : Bool :=
  match hay with
  | [] => needle.isEmpty
  | _ :: tl => needle.isPrefixOf hay || seqContains needle tl

/-- Python `needle in haystack` on strings: substring containment. -/
def substrOf (needle hay : String) : Bool :=
  seqContains needle.toList hay.toList

/-- Python `str.lower()` (ASCII behaviour). -/
def lowerStr (s : String) : String :=
  String.mk (s.toList.map Char.toLower)

/-- Accumulator loop for `pySplit`: words collected so far are reversed. -/
def wordsAux : List Char → List Char → List String
  | [], cur => if cur.isEmpty then [] else [String.mk cur.reverse]
  | c :: cs, cur =>
    if c.isWhitespace then
      if cur.isEmpty then wordsAux cs []
      else String.mk cur.reverse :: wordsAux cs []
    else wordsAux cs (c :: cur)

/-- Python `str.split()` with no argument: split on whitespace runs,
dropping empty fragments. -/
def pySplit (s : String) : List String :=
  wordsAux s.toList []

/-- Fuel-driven loop for `pyReplace`; the fuel starts at the text length,
so the `0` case is never reached for a non-empty pattern. -/
def replaceAux (pat repl : List Char) : Nat → List Char → List Char
  | _, [] => []
  | 0, rest => rest
  | fuel + 1, c :: cs =>
    if pat ≠ [] ∧ pat.isPrefixOf (c :: cs) then
      repl ++ replaceAux pat repl fuel (List.drop pat.length (c :: cs))
    else c :: replaceAux pat repl fuel cs

/-- Python `str.replace(pat, repl)` for a non-empty pattern: replace every
non-overlapping occurrence, scanning left to right. -/
def pyReplace (s pat repl : String) : String :=
  String.mk (replaceAux pat.toList repl.toList s.toList.length s.toList)

/-- Python `str.strip()`: drop leading and trailing whitespace. -/
def stripWs (s : String) : String :=
  String.mk ((s.toList.dropWhile Char.isWhitespace).reverse.dropWhile Char.isWhitespace).reverse

/-- Python `str.lstrip(" ,:")`: drop leading spaces, commas and colons. -/
def lstripPunct (s : String) : String :=
  String.mk (s.toList.dropWhile (fun c => c = ' ' ∨ c = ',' ∨ c = ':'))

/-- First index (in characters) at which `needle` occurs in `hay`,
Python `str.find` restricted to the found case. -/
def seqIndexOf (needle hay : List Char) : Option Nat :=
  match hay with
  | [] => if needle = [] then some 0 else none
  | _ :: tl =>
    if needle.isPrefixOf hay then some 0
    else (seqIndexOf needle tl).map (· + 1)

/-- `Intent` of `src/models.py`: one entry of the definition store. -/
structure Intent where
  keywords : List String := []
  canonical : String := ""
  triggers : List String := []
  contexts : List String := []
  starts_conversation : Bool := false
  initial_prompt : Option String := none
  conversation_state : Option String := none
  is_high_risk : Bool := false
deriving DecidableEq, Repr

/-- The slice of `CoreSettings` the engine reads. -/
structure CoreSettings where
  paranoid_mode_enabled : Bool := false
deriving DecidableEq, Repr

/-- The slice of `SettingsModel` the engine and the macro dispatcher read:
the intent table (insertion-ordered dict, so an association list) and the
registered macro names (`settings.macros` keys). -/
structure Settings where
  core : CoreSettings := {}
  intents : List (String × Intent) := []
  macros : List String := []
deriving DecidableEq, Repr

/-- Entity dictionaries (`Dict[str, str]` values of the engine). -/
abbrev Entities := List (String × String)

/-- Short-term memory record: the engine writes the keys `intent`,
`entities` and `timestamp` together, so a populated memory has all three. -/
structure MemoryRec where
  intent : String
  entities : Entities
  timestamp : ℚ
deriving DecidableEq, Repr

/-- `self.conversation_data`: a dict whose reachable keys are
`original_intent`, `content`, `time`, `original_text` and `candidates`.
A missing key is `none` (reading it with `[...]` raises in Python). -/
structure ConvData where
  original_intent : Option String := none
  content : Option String := none
  time : Option String := none
  original_text : Option String := none
  candidates : List (String × ℚ) := []
deriving DecidableEq, Repr

/-- The mutable per-engine state of `NluEngine`. -/
structure NluState where
  memory : Option MemoryRec := none
  conversation_state : Option String := none
  conversation_data : ConvData := {}
  last_interaction_time : ℚ := 0
deriving DecidableEq, Repr

/-- External collaborators, as consumed by the engine:
`modelLoaded` is `self.model is not None` together with cache readiness;
`scores text` is the row `util.cos_sim(encode(text), canonical_embeddings)[0]`
(parallel to `intentKeys`); `ner` is `NerHandler.extract_entities`; and
`whatsapp` abstracts the regex search of `_extract_entities_whatsapp`
(recipient, message) — no claim depends on its output, so the theorems
below hold for every such function. -/
structure Env where
  modelLoaded : Bool
  scores : String → List ℚ
  ner : String → List (String × List String)
  whatsapp : String → Option (String × String)

/-- `(intent_tag, entities, prompt)` as returned by `process`. -/
abbrev Result := Option String × Option Entities × Option String

/-- `self.MEMORY_TIMEOUT_S`. -/
def MEMORY_TIMEOUT_S : ℚ := 30

/-- `self.CONVERSATION_TIMEOUT_S`. -/
def CONVERSATION_TIMEOUT_S : ℚ := 60

/-- `HIGH_CONFIDENCE_THRESHOLD = 0.85` in `process`. -/
def HIGH_CONFIDENCE_THRESHOLD : ℚ := mkRat 85 100

/-- `AMBIGUITY_THRESHOLD = 0.15` in `process`. -/
def AMBIGUITY_THRESHOLD : ℚ := mkRat 15 100

/-- `MIN_CONFIDENCE_THRESHOLD = 0.5` in `process`. -/
def MIN_CONFIDENCE_THRESHOLD : ℚ := mkRat 1 2

/-- `self.FOLLOW_UP_KEYWORDS`. -/
def FOLLOW_UP_KEYWORDS : List String :=
  ["it", "that", "this", "on the same topic", "again", "for that", "do that",
   "the first one", "the second one", "first", "second"]

/-- `self.WRITE_KEYWORDS`. -/
def WRITE_KEYWORDS : List String :=
  ["write", "generate", "create a function", "code me", "draft"]

/-- Python truthiness of `self.conversation_state` (a `str | None`). -/
def convTruthy : Option String → Bool
  | none => false
  | some s => s ≠ ""

/-- Python truthiness of an entity dict that may be `None`. -/
def entTruthy : Option Entities → Bool
  | none => false
  | some l => l ≠ []

/-- Python truthiness of the `context` argument (a `str | None`). -/
def ctxTruthy : Option String → Bool
  | none => false
  | some s => s ≠ ""

/-- Python `" ".join(items)`. -/
def joinSpace : List String → String
  | [] => ""
  | [w] => w
  | w :: ws => w ++ " " ++ joinSpace ws

/-- The `best_trigger` selection loop of `_extract_entity`: longest trigger
whose lower-cased form occurs in the lower-cased text, first wins ties. -/
def bestTrigger (textLower : String) (triggers : List String) : String :=
  triggers.foldl
    (fun best t =>
      if substrOf (lowerStr t) textLower ∧ t.length > best.length then t else best)
    ""

/-- `NluEngine._extract_entity`: strip the best trigger off the text and
return the remainder (after `lstrip(" ,:").strip()`), or `None`. -/
def extractEntity (text : String) (triggers : List String) : Option String :=
  let textLower := lowerStr text
  let best := bestTrigger textLower triggers
  if best ≠ "" then
    let triggerLower := lowerStr best
    let start := ((seqIndexOf triggerLower.toList textLower.toList).getD 0) + triggerLower.length
    let entity := stripWs (lstripPunct (String.mk (text.toList.drop start)))
    if entity ≠ "" then some entity else none
  else none

/-- The paranoid-mode filter of `_classify_intent`: with
`paranoid_mode_enabled`, drop every intent with `is_high_risk`. -/
def safeIntents (s : Settings) : List (String × Intent) :=
  if s.core.paranoid_mode_enabled then
    s.intents.filter (fun p => !p.2.is_high_risk)
  else s.intents

/-- The `applicable_intents` dict of `_classify_intent`: first (when the
context is truthy) the intents whose `contexts` contain it, then the
intents with empty `contexts` not already present. -/
def applicableIntents (s : Settings) (context : Option String) : List (String × Intent) :=
  let safe := safeIntents s
  let contextMatched :=
    if ctxTruthy context then
      safe.filter (fun p => p.2.contexts.contains (context.getD ""))
    else []
  contextMatched ++
    safe.filter
      (fun p => p.2.contexts.isEmpty && !(contextMatched.any (fun q => q.1 == p.1)))

/-- The exact-keyword pass of `_classify_intent`: first applicable intent
one of whose keywords (lower-cased) occurs in the lower-cased text. -/
def keywordHit (applicable : List (String × Intent)) (textLower : String) : Option String :=
  applicable.findSome? fun p =>
    if p.2.keywords.any (fun k => substrOf (lowerStr k) textLower) then some p.1
    else none

/-- `self.intent_keys` as rebuilt by `reload_intents`: the keys of every
intent with a non-empty canonical phrase, over the whole intent table. -/
def intentKeys (s : Settings) : List String :=
  (s.intents.filter (fun p => p.2.canonical != "")).map Prod.fst

/-- Insert into a score-descending list, after existing entries of equal
score (matching `torch.topk`, which keeps lower indices first on ties). -/
def insertDesc (p : String × ℚ) : List (String × ℚ) → List (String × ℚ)
  | [] => [p]
  | q :: qs => if p.2 > q.2 then p :: q :: qs else q :: insertDesc p qs

/-- Stable sort by descending score. -/
def sortDesc : List (String × ℚ) → List (String × ℚ)
  | [] => []
  | p :: ps => insertDesc p (sortDesc ps)

/-- The semantic tier of `_classify_intent`: guard on model and
`intent_keys`, then `torch.topk(cos_sim(...), k = min(3, len(keys)))`. -/
def semanticCandidates (env : Env) (s : Settings) (text : String) : List (String × ℚ) :=
  let keys := intentKeys s
  if !env.modelLoaded || keys.isEmpty then []
  else (sortDesc (keys.zip (env.scores text))).take (min 3 keys.length)

/-- `NluEngine._classify_intent`. -/
def classifyIntent (env : Env) (s : Settings) (text : String) (context : Option String) :
    List (String × ℚ) :=
  let textLower := lowerStr text
  let applicable := applicableIntents s context
  match keywordHit applicable textLower with
  | some name => [(name, 1)]
  | none =>
    (semanticCandidates env s text).filter
      (fun p => applicable.any (fun q => q.1 == p.1))

/-- `any(keyword in text.lower() for keyword in self.FOLLOW_UP_KEYWORDS)`. -/
def isFollowUp (text : String) : Bool :=
  FOLLOW_UP_KEYWORDS.any (fun k => substrOf k (lowerStr text))

/-- `any(keyword in text.lower() for keyword in self.WRITE_KEYWORDS)`. -/
def hasWriteKeyword (text : String) : Bool :=
  WRITE_KEYWORDS.any (fun k => substrOf k (lowerStr text))

/-- The leading if/elif chain of `process_intent`, before the follow-up and
memory-write steps: the `entities` and `prompt` locals and the state after
a possible conversation start. -/
def baseResolution (env : Env) (now : ℚ) (s : Settings) (st : NluState)
    (intent text : String) : Option Entities × Option String × NluState :=
  if intent == "EXECUTE_DYNAMIC_TASK" || intent == "WRITE_CODE" then
    (some [("query", text)], none, st)
  else if intent == "SEND_WHATSAPP_MESSAGE" then
    ((env.whatsapp text).map (fun rm => [("recipient", rm.1), ("message", rm.2)]), none, st)
  else if intent != "" && intent != "UNKNOWN_INTENT" then
    match s.intents.lookup intent with
    | some d =>
      let ps :=
        if d.starts_conversation then
          (d.initial_prompt,
           { st with
             conversation_state := d.conversation_state
             conversation_data := { original_intent := some intent }
             last_interaction_time := now })
        else (none, st)
      let entities :=
        if !d.triggers.isEmpty then
          match extractEntity text d.triggers with
          | some e => some [("entity", e)]
          | none => none
        else none
      (entities, ps.1, ps.2)
    | none => (none, none, st)
  else (none, none, st)

/-- `NluEngine.process_intent`. -/
def processIntent (env : Env) (now : ℚ) (s : Settings) (st : NluState)
    (intent text : String) : NluState × Result :=
  let base := baseResolution env now s st intent text
  let entities0 := base.1
  let prompt := base.2.1
  let st1 := base.2.2
  let step :=
    if !(entTruthy entities0) && isFollowUp text then
      match st1.memory with
      | some m =>
        (some m.entities, if intent == "UNKNOWN_INTENT" then m.intent else intent)
      | none => (entities0, intent)
    else (entities0, intent)
  let entities1 := step.1
  let intent1 := step.2
  let st2 :=
    if entTruthy entities1 &&
        !(intent1 == "EXECUTE_DYNAMIC_TASK" || intent1 == "WRITE_CODE") then
      { st1 with memory := some ⟨intent1, entities1.getD [], now⟩ }
    else st1
  (st2, (some ("[" ++ intent1 ++ "]"), entities1, prompt))

/-- `NluEngine._clear_expired_memory`. -/
def clearExpiredMemory (now : ℚ) (st : NluState) : NluState :=
  match st.memory with
  | some m =>
    if now - m.timestamp > MEMORY_TIMEOUT_S then { st with memory := none } else st
  | none => st

/-- `NluEngine._clear_expired_conversation`. -/
def clearExpiredConversation (now : ℚ) (st : NluState) : NluState :=
  if convTruthy st.conversation_state ∧
      now - st.last_interaction_time > CONVERSATION_TIMEOUT_S then
    { st with conversation_state := none, conversation_data := {} }
  else st

/-- `NluEngine._handle_active_conversation`. Raisable dict/list accesses
(the `content` key of `conversation_data`, and the index accesses
`candidates[0][0]` and `candidates[1][0]`)
are modelled with `Except.error`. -/
def handleActiveConversation (env : Env) (now : ℚ) (s : Settings) (st0 : NluState)
    (text : String) : Except String (NluState × Result) :=
  let st := { st0 with last_interaction_time := now }
  let textLower := lowerStr text
  if st.conversation_state == some "AWAITING_REMINDER_CONTENT" then
    .ok ({ st with
            conversation_data := { st.conversation_data with content := some text }
            conversation_state := some "AWAITING_REMINDER_TIME" },
         (none, none, some "Got it. When should I remind you?"))
  else if st.conversation_state == some "AWAITING_REMINDER_TIME" then
    let ents := env.ner text
    let dateEntity := joinSpace ((ents.lookup "DATE").getD [])
    let timeEntity := joinSpace ((ents.lookup "TIME").getD [])
    let joined := stripWs (dateEntity ++ " " ++ timeEntity)
    let fullTimeEntity := if joined = "" then text else joined
    match st.conversation_data.content with
    | none => .error "KeyError: content"
    | some c =>
      .ok ({ st with conversation_state := none, conversation_data := {} },
           (some "[CREATE_SCHEDULED_REMINDER]",
            some [("content", c), ("time", fullTimeEntity)],
            some ("Okay, reminder set for " ++ c ++ " at " ++ fullTimeEntity ++ ".")))
  else if st.conversation_state == some "AWAITING_AMBIGUITY_RESOLUTION" then
    let candidates := st.conversation_data.candidates
    let firstHit :=
      substrOf "first" textLower ||
        (match candidates with
         | c0 :: _ => substrOf (pyReplace (lowerStr c0.1) "_" " ") textLower
         | [] => false)
    let secondHit :=
      substrOf "second" textLower ||
        (match candidates with
         | _ :: c1 :: _ => substrOf (pyReplace (lowerStr c1.1) "_" " ") textLower
         | _ => false)
    if firstHit then
      match candidates with
      | c0 :: _ =>
        let originalText := st.conversation_data.original_text.getD ""
        .ok (processIntent env now s
              { st with conversation_state := none, conversation_data := {} }
              c0.1 originalText)
      | [] => .error "IndexError: list index out of range"
    else if secondHit then
      match candidates with
      | _ :: c1 :: _ =>
        let originalText := st.conversation_data.original_text.getD ""
        .ok (processIntent env now s
              { st with conversation_state := none, conversation_data := {} }
              c1.1 originalText)
      | _ => .error "IndexError: list index out of range"
    else
      .ok (st, (none, none,
        some "Sorry, I didn\x27t understand. Please say \x27the first one\x27 or \x27the second one\x27."))
  else .ok (st, (none, none, none))

/-- The abstention block closing `process` (also reached when the
classifier returns no candidates). -/
def fallback (env : Env) (now : ℚ) (s : Settings) (st : NluState) (text : String) :
    Except String (NluState × Result) :=
  if hasWriteKeyword text then
    .ok (processIntent env now s st "WRITE_CODE" text)
  else if (pySplit text).length > 4 then
    .ok (processIntent env now s st "EXECUTE_DYNAMIC_TASK" text)
  else
    .ok (st, (some "[UNKNOWN_INTENT]", none, none))

/-- The tail of `process` after the ambiguity check: the
`MIN_CONFIDENCE_THRESHOLD` dispatch, else the abstention block. -/
def lowConfidenceOrFallback (env : Env) (now : ℚ) (s : Settings) (st : NluState)
    (text topIntent : String) (topScore : ℚ) : Except String (NluState × Result) :=
  if topScore ≥ MIN_CONFIDENCE_THRESHOLD then
    .ok (processIntent env now s st topIntent text)
  else fallback env now s st text

/-- `NluEngine.process`: the public entry point. Note that it overwrites
`last_interaction_time` with the current time before calling
`_clear_expired_conversation`, exactly as the source does. -/
def process (env : Env) (now : ℚ) (s : Settings) (st : NluState)
    (text : String) (context : Option String) : Except String (NluState × Result) :=
  let st0 := { st with last_interaction_time := now }
  let st1 := clearExpiredMemory now st0
  let st2 := clearExpiredConversation now st1
  if convTruthy st2.conversation_state then
    handleActiveConversation env now s st2 text
  else
    match classifyIntent env s text context with
    | [] => fallback env now s st2 text
    | (topIntent, topScore) :: rest =>
      if topScore ≥ HIGH_CONFIDENCE_THRESHOLD then
        .ok (processIntent env now s st2 topIntent text)
      else
        match rest with
        | (secondIntent, secondScore) :: _ =>
          if topScore - secondScore < AMBIGUITY_THRESHOLD then
            .ok ({ st2 with
                    conversation_state := some "AWAITING_AMBIGUITY_RESOLUTION"
                    conversation_data :=
                      { original_text := some text
                        candidates := [(topIntent, topScore), (secondIntent, secondScore)] } },
                 (none, none,
                  some ("Did you mean " ++ lowerStr (pyReplace topIntent "_" " ") ++
                        ", or " ++ lowerStr (pyReplace secondIntent "_" " ") ++ "?")))
          else lowConfidenceOrFallback env now s st2 text topIntent topScore
        | [] => lowConfidenceOrFallback env now s st2 text topIntent topScore

/-- Python `str.strip("[]")`: drop leading and trailing square brackets. -/
def stripBrackets (s : String) : String :=
  String.mk (((s.toList.dropWhile (fun c => c = '[' ∨ c = ']')).reverse.dropWhile
    (fun c => c = '[' ∨ c = ']')).reverse)

/-- The macro-dispatch test of `ActionManager.execute_action`: the macro
table keys are lower-cased at load time, and an intent tag runs a macro
iff its bracket-stripped, lower-cased form is one of those keys. -/
def dispatchesMacro (s : Settings) (tag : String) : Bool :=
  (s.macros.map lowerStr).contains (lowerStr (stripBrackets tag))

/-- Environment with the encoder unavailable (semantic cache never ready)
and the NER service returning nothing. -/
def noSemanticEnv : Env :=
  { modelLoaded := false, scores := fun _ => [], ner := fun _ => [],
    whatsapp := fun _ => none }

/-- Environment whose encoder scores every query `[3/5, 11/20]` against the
two cached canonicals: two close, sub-threshold candidates. -/
def twoCandidateEnv : Env :=
  { modelLoaded := true, scores := fun _ => [mkRat 3 5, mkRat 11 20],
    ner := fun _ => [], whatsapp := fun _ => none }

/-- A definition store with the reminder intent of the specification
scenario: `starts_conversation`, the initial prompt, and the
`AWAITING_REMINDER_CONTENT` dialogue state. -/
def reminderSettings : Settings :=
  { intents := [("REMINDER",
      { keywords := ["remind"], starts_conversation := true,
        initial_prompt := some "What should I remind you about?",
        conversation_state := some "AWAITING_REMINDER_CONTENT" })] }

/-- A definition store holding one registered macro and no intents. -/
def macroOnlySettings : Settings :=
  { macros := ["goodnight"] }

/-- The same macro next to the companion intent that
`SettingsManager.create_macro_from_suggestion` registers for it
(upper-snake name, keyword = lower-cased macro name, `is_high_risk`). -/
def macroCompanionSettings : Settings :=
  { intents := [("GOODNIGHT",
      { keywords := ["goodnight"], canonical := "execute the goodnight workflow",
        is_high_risk := true })],
    macros := ["goodnight"] }

/-- Paranoid mode on, and the store flags the `WRITE_CODE` intent itself as
high-risk (it performs code generation). -/
def paranoidWriteCodeSettings : Settings :=
  { core := { paranoid_mode_enabled := true },
    intents := [("WRITE_CODE", { canonical := "write some code", is_high_risk := true })] }

/-- A definition store whose intent enters the `AWAITING_REMINDER_TIME`
dialogue state directly (legal per the `Intent` model: `conversation_state`
is an arbitrary optional string chosen by the definition author). -/
def quickReminderSettings : Settings :=
  { intents := [("QUICK_REMINDER",
      { keywords := ["quick reminder"], starts_conversation := true,
        initial_prompt := some "When?",
        conversation_state := some "AWAITING_REMINDER_TIME" })] }

/-- A definition store with an `OPEN_LOCAL_ITEM` intent driven by the
ordinary keyword + trigger mechanism. -/
def openLocalItemSettings : Settings :=
  { intents := [("OPEN_LOCAL_ITEM", { keywords := ["open"], triggers := ["open"] })] }

/-- A definition store whose two intents differ only in their canonical
phrase, neither having keywords: classification must use the semantic tier. -/
def twoIntentSettings : Settings :=
  { intents := [("OPEN_APP", { canonical := "open the application" }),
                ("CLOSE_APP", { canonical := "close the application" })] }

/-- One intent restricted to the foreground context `appX`. -/
def contextRestrictedSettings : Settings :=
  { intents := [("A_INTENT",
      { keywords := ["hello"], canonical := "hi there", contexts := ["appX"] })] }

/-- Engine state with a stale conversation: `AWAITING_REMINDER_CONTENT`
entered at time 0. -/
def staleConversationState : NluState :=
  { conversation_state := some "AWAITING_REMINDER_CONTENT",
    conversation_data := { original_intent := some "REMINDER" },
    last_interaction_time := 0 }

/-- Environment whose encoder gives every query the single score 2/5
against the one cached canonical: below MIN_CONFIDENCE_THRESHOLD, with no
runner-up to trigger the ambiguity prompt. -/
def lowScoreEnv : Env :=
  { modelLoaded := true, scores := fun _ => [mkRat 2 5],
    ner := fun _ => [], whatsapp := fun _ => none }

/-- A definition store with a single keyword-less intent carrying a
canonical phrase, so classification must use the semantic tier. -/
def lowConfidenceSettings : Settings :=
  { intents := [("SET_TIMER", { canonical := "set a timer" })] }

/-- Engine state with populated short-term memory from a prior resolution. -/
def memoryDemoState : NluState :=
  { memory := some { intent := "OPEN_APP", entities := [("entity", "chrome")], timestamp := 0 } }

attribute [local semireducible] Rat.sub Rat.add Rat.mul Rat.inv

theorem seqContains_iff_isInfix (n h : List Char) :
    seqContains n h = true ↔ n <:+: h := by
  induction h with
  | nil => simp [seqContains, List.isEmpty_iff, List.infix_nil]
  | cons c tl ih =>
    simp [seqContains, List.infix_cons_iff, ih]

theorem clearExpiredMemory_conversation_state (now : ℚ) (st : NluState) :
    (clearExpiredMemory now st).conversation_state = st.conversation_state := by
  unfold clearExpiredMemory
  cases st.memory with
  | none => rfl
  | some m => dsimp only; split <;> rfl

theorem clearExpiredMemory_memory_none (now : ℚ) (st : NluState)
    (h : st.memory = none) : clearExpiredMemory now st = st := by
  unfold clearExpiredMemory
  rw [h]

theorem clearExpiredConversation_of_none (now : ℚ) (st : NluState)
    (h : st.conversation_state = none) : clearExpiredConversation now st = st := by
  unfold clearExpiredConversation
  split
  · rename_i hcond
    rw [h] at hcond
    exact absurd hcond.1 (by simp [convTruthy])
  · rfl

theorem baseResolution_memory (env : Env) (now : ℚ) (s : Settings) (st : NluState)
    (intent text : String) :
    (baseResolution env now s st intent text).2.2.memory = st.memory := by
  unfold baseResolution
  repeat' split
  all_goals rfl

theorem processIntent_tag_of_memory_none (env : Env) (now : ℚ) (s : Settings)
    (st : NluState) (intent text : String) (h : st.memory = none) :
    (processIntent env now s st intent text).2.1 = some ("[" ++ intent ++ "]") := by
  have hm : (baseResolution env now s st intent text).2.2.memory = none := by
    rw [baseResolution_memory]; exact h
  simp only [processIntent]
  rw [hm]
  dsimp only
  split <;> rfl

theorem nodupKeys_unique {α β : Type} [DecidableEq α] {l : List (α × β)} {k : α} {a b : β}
    (hnodup : (l.map Prod.fst).Nodup) (ha : (k, a) ∈ l) (hb : (k, b) ∈ l) : a = b := by
  induction l with
  | nil => cases ha
  | cons p tl ih =>
    rw [List.map_cons, List.nodup_cons] at hnodup
    rcases List.mem_cons.mp ha with ha1 | ha1 <;> rcases List.mem_cons.mp hb with hb1 | hb1
    · have h2 : (k, a) = (k, b) := ha1.trans hb1.symm
      exact ((Prod.mk.injEq _ _ _ _).mp h2).2
    · exact absurd (show p.1 ∈ tl.map Prod.fst by
        rw [← ha1]; simpa using List.mem_map_of_mem Prod.fst hb1) hnodup.1
    · exact absurd (show p.1 ∈ tl.map Prod.fst by
        rw [← hb1]; simpa using List.mem_map_of_mem Prod.fst ha1) hnodup.1
    · exact ih hnodup.2 ha1 hb1

theorem mem_safeIntents {s : Settings} {p : String × Intent}
    (h : p ∈ safeIntents s) : p ∈ s.intents := by
  unfold safeIntents at h
  split at h
  · exact List.mem_of_mem_filter h
  · exact h

theorem safeIntents_not_high_risk {s : Settings} {p : String × Intent}
    (hp : s.core.paranoid_mode_enabled = true) (h : p ∈ safeIntents s) :
    p.2.is_high_risk = false := by
  unfold safeIntents at h
  rw [hp] at h
  simp only [if_true] at h
  have := List.of_mem_filter h
  simpa using this

theorem mem_applicableIntents {s : Settings} {ctx : Option String} {p : String × Intent}
    (h : p ∈ applicableIntents s ctx) :
    p ∈ safeIntents s ∧
      (p.2.contexts = [] ∨ ∃ c, ctx = some c ∧ c ∈ p.2.contexts) := by
  unfold applicableIntents at h
  rcases List.mem_append.mp h with h1 | h1
  · split at h1
    · rename_i hctx
      refine ⟨List.mem_of_mem_filter h1, Or.inr ?_⟩
      have hcont := List.of_mem_filter h1
      cases ctx with
      | none => simp [ctxTruthy] at hctx
      | some c =>
        exact ⟨c, rfl, by simpa using hcont⟩
    · cases h1
  · refine ⟨List.mem_of_mem_filter h1, Or.inl ?_⟩
    have := List.of_mem_filter h1
    simp only [Bool.and_eq_true] at this
    exact List.isEmpty_iff.mp (by simpa using this.1)

theorem mem_classify_applicable {env : Env} {s : Settings} {text : String}
    {ctx : Option String} {I : String} {sc : ℚ}
    (h : (I, sc) ∈ classifyIntent env s text ctx) :
    ∃ d, (I, d) ∈ applicableIntents s ctx := by
  simp only [classifyIntent] at h
  split at h
  · rename_i name hfind
    have hmem := List.mem_singleton.mp h
    obtain ⟨p, hp, hpe⟩ := List.exists_of_findSome?_eq_some hfind
    split at hpe
    · refine ⟨p.2, ?_⟩
      have h1 : p.1 = name := by injection hpe
      have h2 : I = name := congrArg Prod.fst hmem
      rw [h2, ← h1]
      exact hp
    · cases hpe
  · have hany := (List.mem_filter.mp h).2
    simp only [List.any_eq_true] at hany
    obtain ⟨q, hq, hqe⟩ := hany
    refine ⟨q.2, ?_⟩
    have : q.1 = I := by simpa using hqe
    rw [← this]
    exact hq

theorem classify_not_high_risk {env : Env} {s : Settings} {text : String}
    {ctx : Option String} {I : String} {sc : ℚ}
    (hp : s.core.paranoid_mode_enabled = true)
    (hnodup : (s.intents.map Prod.fst).Nodup)
    (h : (I, sc) ∈ classifyIntent env s text ctx) :
    ∀ d : Intent, (I, d) ∈ s.intents → d.is_high_risk = false := by
  obtain ⟨d', hd'⟩ := mem_classify_applicable h
  have hsafe := (mem_applicableIntents hd').1
  have hrisk := safeIntents_not_high_risk hp hsafe
  have hmem := mem_safeIntents hsafe
  intro d hd
  have : d = d' := nodupKeys_unique hnodup hd hmem
  rw [this]
  exact hrisk

theorem process_conv_none (env : Env) (now : ℚ) (s : Settings) (st : NluState)
    (text : String) (ctx : Option String) (hconv : st.conversation_state = none) :
    process env now s st text ctx =
      (match classifyIntent env s text ctx with
       | [] =>
         fallback env now s (clearExpiredMemory now { st with last_interaction_time := now }) text
       | (topIntent, topScore) :: rest =>
         if topScore ≥ HIGH_CONFIDENCE_THRESHOLD then
           .ok (processIntent env now s
                 (clearExpiredMemory now { st with last_interaction_time := now }) topIntent text)
         else
           match rest with
           | (secondIntent, secondScore) :: _ =>
             if topScore - secondScore < AMBIGUITY_THRESHOLD then
               .ok ({ clearExpiredMemory now { st with last_interaction_time := now } with
                       conversation_state := some "AWAITING_AMBIGUITY_RESOLUTION"
                       conversation_data :=
                         { original_text := some text
                           candidates := [(topIntent, topScore), (secondIntent, secondScore)] } },
                    (none, none,
                     some ("Did you mean " ++ lowerStr (pyReplace topIntent "_" " ") ++
                           ", or " ++ lowerStr (pyReplace secondIntent "_" " ") ++ "?")))
             else
               lowConfidenceOrFallback env now s
                 (clearExpiredMemory now { st with last_interaction_time := now })
                 text topIntent topScore
           | [] =>
             lowConfidenceOrFallback env now s
               (clearExpiredMemory now { st with last_interaction_time := now })
               text topIntent topScore) := by
  have hconv2 :
      (clearExpiredMemory now { st with last_interaction_time := now }).conversation_state
        = none := by
    rw [clearExpiredMemory_conversation_state]
    exact hconv
  simp only [process]
  rw [clearExpiredConversation_of_none _ _ hconv2]
  rw [if_neg ?hc]
  case hc => rw [hconv2]; decide

theorem fallback_tags (env : Env) (now : ℚ) (s : Settings) (st : NluState)
    (text : String) (hm : st.memory = none) {st' : NluState} {tag : String}
    {ents : Option Entities} {pr : Option String}
    (h : fallback env now s st text = .ok (st', (some tag, ents, pr))) :
    tag = "[" ++ "WRITE_CODE" ++ "]" ∨ tag = "[" ++ "EXECUTE_DYNAMIC_TASK" ++ "]" ∨
      tag = "[" ++ "UNKNOWN_INTENT" ++ "]" := by
  unfold fallback at h
  split at h
  · left
    injection h with h1
    have h2 := congrArg (fun x => x.2.1) h1
    dsimp only at h2
    rw [processIntent_tag_of_memory_none _ _ _ _ _ _ hm] at h2
    injection h2 with h3
    exact h3.symm
  · split at h
    · right; left
      injection h with h1
      have h2 := congrArg (fun x => x.2.1) h1
      dsimp only at h2
      rw [processIntent_tag_of_memory_none _ _ _ _ _ _ hm] at h2
      injection h2 with h3
      exact h3.symm
    · right; right
      injection h with h1
      have h2 := congrArg (fun x => x.2.1) h1
      dsimp only at h2
      injection h2 with h3
      exact h3.symm

theorem lowConf_tags (env : Env) (now : ℚ) (s : Settings) (st : NluState)
    (text topIntent : String) (topScore : ℚ) (hm : st.memory = none)
    {st' : NluState} {tag : String} {ents : Option Entities} {pr : Option String}
    (h : lowConfidenceOrFallback env now s st text topIntent topScore =
          .ok (st', (some tag, ents, pr))) :
    tag = "[" ++ topIntent ++ "]" ∨ tag = "[" ++ "WRITE_CODE" ++ "]" ∨
      tag = "[" ++ "EXECUTE_DYNAMIC_TASK" ++ "]" ∨ tag = "[" ++ "UNKNOWN_INTENT" ++ "]" := by
  unfold lowConfidenceOrFallback at h
  split at h
  · left
    injection h with h1
    have h2 := congrArg (fun x => x.2.1) h1
    dsimp only at h2
    rw [processIntent_tag_of_memory_none _ _ _ _ _ _ hm] at h2
    injection h2 with h3
    exact h3.symm
  · right
    exact fallback_tags env now s st text hm h

theorem fallback_eq (env : Env) (now : ℚ) (s : Settings) (st : NluState)
    (text : String) :
    (hasWriteKeyword text = true →
      fallback env now s st text =
        .ok (st, (some "[WRITE_CODE]", some [("query", text)], none))) ∧
    (hasWriteKeyword text = false → (pySplit text).length > 4 →
      fallback env now s st text =
        .ok (st, (some "[EXECUTE_DYNAMIC_TASK]", some [("query", text)], none))) ∧
    (hasWriteKeyword text = false → ¬ (pySplit text).length > 4 →
      fallback env now s st text =
        .ok (st, (some "[UNKNOWN_INTENT]", none, none))) := by
  refine ⟨?_, ?_, ?_⟩
  · intro hw
    unfold fallback
    rw [if_pos hw]
    rfl
  · intro hw hlen
    unfold fallback
    rw [if_neg (by simp [hw]), if_pos hlen]
    rfl
  · intro hw hlen
    unfold fallback
    rw [if_neg (by simp [hw]), if_neg hlen]

/-- C1: the claim says a conversation session older than
`CONVERSATION_TTL` (60 s) is reset before processing and the next call
behaves as a fresh `process` call. The code cannot do this: `process`
overwrites `last_interaction_time` with the current time before calling
`_clear_expired_conversation`, so the timeout test always compares `now`
with `now` and never fires (first conjunct). Concretely, a
`AWAITING_REMINDER_CONTENT` session last touched at time 0 is resumed at
time 100: the utterance is swallowed as the reminder content and the
follow-up prompt is returned, while a fresh call on the same utterance
returns the unknown-intent triple — the two results differ. -/
theorem c1_conversation_ttl_never_fires :
    (∀ (now : ℚ) (st : NluState),
      clearExpiredConversation now { st with last_interaction_time := now } =
        { st with last_interaction_time := now }) ∧
    process noSemanticEnv 100 {} staleConversationState "hello" none =
      .ok ({ conversation_state := some "AWAITING_REMINDER_TIME",
             conversation_data := { original_intent := some "REMINDER", content := some "hello" },
             last_interaction_time := 100 },
           (none, none, some "Got it. When should I remind you?")) ∧
    process noSemanticEnv 100 {} {} "hello" none =
      .ok ({ last_interaction_time := 100 }, (some "[UNKNOWN_INTENT]", none, none)) ∧
    ((none, none, some "Got it. When should I remind you?") : Result) ≠
      (some "[UNKNOWN_INTENT]", none, none) := by
  refine ⟨?_, rfl, rfl, by decide⟩
  intro now st
  unfold clearExpiredConversation
  split
  · rename_i hcond
    exact absurd hcond.2 (by simp [CONVERSATION_TIMEOUT_S])
  · rfl

/-- C2 counterexample: `"goodnight"` is a registered macro, yet
`process` on the utterance `"goodnight"` returns the unknown-intent tag —
a tag that does not dispatch the macro downstream — rather than the
tag of the macro with null entities and prompt. -/
theorem c2_macro_name_not_matched :
    process noSemanticEnv 0 macroOnlySettings {} "goodnight" none =
      .ok ({ last_interaction_time := 0 }, (some "[UNKNOWN_INTENT]", none, none)) ∧
    "goodnight" ∈ macroOnlySettings.macros ∧
    dispatchesMacro macroOnlySettings "[UNKNOWN_INTENT]" = false := by
  exact ⟨rfl, by decide, by decide⟩

/-- C2 amended: `process` performs no macro-name matching at all — its
result is independent of the registered macro table (first conjunct). A
macro becomes voice-callable only through the companion intent that
`create_macro_from_suggestion` registers (keyword = lower-cased macro
name); with that intent present, `process` on the name of the macro returns the
companion tag with null entities and prompt — irrespective of the semantic
cache, since this is the keyword tier — and that tag does dispatch the
macro in `ActionManager.execute_action`. -/
theorem c2_macro_dispatch_amended :
    (∀ (env : Env) (now : ℚ) (s : Settings) (M : List String) (st : NluState)
        (text : String) (ctx : Option String),
      process env now { s with macros := M } st text ctx = process env now s st text ctx) ∧
    process noSemanticEnv 0 macroCompanionSettings {} "goodnight" none =
      .ok ({ last_interaction_time := 0 }, (some "[GOODNIGHT]", none, none)) ∧
    dispatchesMacro macroCompanionSettings "[GOODNIGHT]" = true := by
  refine ⟨?_, rfl, by decide⟩
  intro env now s M st text ctx
  cases s
  rfl

/-- C3 counterexample: on the first turn of the reminder dialogue the
claim requires the result `(None, None, initial_prompt)`; the
`process_intent` returns the intent tag together with the prompt, so the
call yields `("[REMINDER]", None, "What should I remind you about?")`
with a non-null intent tag. -/
theorem c3_first_turn_tag_not_null :
    process noSemanticEnv 0 reminderSettings {} "remind me" none =
      .ok ({ conversation_state := some "AWAITING_REMINDER_CONTENT",
             conversation_data := { original_intent := some "REMINDER" },
             last_interaction_time := 0 },
           (some "[REMINDER]", none, some "What should I remind you about?")) ∧
    (some "[REMINDER]" : Option String) ≠ none := by
  exact ⟨rfl, by decide⟩

/-- C3 amended: the three-turn reminder dialogue behaves as claimed
except on the first turn, which returns the intent tag `"[REMINDER]"`
alongside the initial prompt instead of a null tag. The remaining turns
match the claim exactly (with the NER service extracting no DATE/TIME
entities, the raw utterance is used as the time slot), and the session
returns to null. -/
theorem c3_reminder_dialogue_adjusted :
    ∃ st1 st2 st3 : NluState,
      process noSemanticEnv 0 reminderSettings {} "remind me" none =
        .ok (st1, (some "[REMINDER]", none, some "What should I remind you about?")) ∧
      process noSemanticEnv 1 reminderSettings st1 "buy milk" none =
        .ok (st2, (none, none, some "Got it. When should I remind you?")) ∧
      process noSemanticEnv 2 reminderSettings st2 "tomorrow at 9am" none =
        .ok (st3, (some "[CREATE_SCHEDULED_REMINDER]",
                   some [("content", "buy milk"), ("time", "tomorrow at 9am")],
                   some "Okay, reminder set for buy milk at tomorrow at 9am.")) ∧
      st3.conversation_state = none := by
  exact ⟨_, _, _, rfl, rfl, rfl, rfl⟩

/-- C7 counterexample: the engine has no local-item heuristic and consults
no lexicon — `process` takes no lexicon input at all. With no intent
configured to match, `process("open downloads")` returns the unknown-intent
triple, not the `OPEN_LOCAL_ITEM` tag with a `downloads` entity. -/
theorem c7_open_downloads_unknown :
    process noSemanticEnv 0 {} {} "open downloads" none =
      .ok ({ last_interaction_time := 0 }, (some "[UNKNOWN_INTENT]", none, none)) ∧
    (some "[UNKNOWN_INTENT]" : Option String) ≠ some "[OPEN_LOCAL_ITEM]" := by
  exact ⟨rfl, by decide⟩

/-- C7 amended: the scenario triple of the spec is produced only when the
definition store supplies an `OPEN_LOCAL_ITEM` intent with keyword
`"open"` and trigger `"open"`: then the ordinary exact-keyword path plus
trigger-stripping entity extraction yields
the `OPEN_LOCAL_ITEM` tag with entity `downloads` and no prompt (and a short-term
memory write), with no lexicon involved. -/
theorem c7_open_local_item_via_keyword :
    process noSemanticEnv 0 openLocalItemSettings {} "open downloads" none =
      .ok ({ memory := some { intent := "OPEN_LOCAL_ITEM",
                              entities := [("entity", "downloads")], timestamp := 0 },
             last_interaction_time := 0 },
           (some "[OPEN_LOCAL_ITEM]", some [("entity", "downloads")], none)) := by
  exact rfl

/-- C9: the claim says `process` always returns a triple and never lets an
exception propagate, for every reachable conversation state including
session data reachable through intent definitions that set
`conversation_state`. The code violates this: an intent whose definition
enters `AWAITING_REMINDER_TIME` directly leaves `conversation_data`
without a `content` key, and the next call raises `KeyError` at
the `content` lookup in `conversation_data`. -/
theorem c9_reminder_time_keyerror :
    process noSemanticEnv 0 quickReminderSettings {} "quick reminder" none =
      .ok ({ conversation_state := some "AWAITING_REMINDER_TIME",
             conversation_data := { original_intent := some "QUICK_REMINDER" },
             last_interaction_time := 0 },
           (some "[QUICK_REMINDER]", none, some "When?")) ∧
    process noSemanticEnv 1 quickReminderSettings
        { conversation_state := some "AWAITING_REMINDER_TIME",
          conversation_data := { original_intent := some "QUICK_REMINDER" },
          last_interaction_time := 0 } "tomorrow" none =
      .error "KeyError: content" := by
  exact ⟨rfl, rfl⟩

/-- C4 counterexample: the claim says the abstention step always returns
one of the two fallback tags with the whole text as a query entity. For a
short text (4 or fewer words, no code keyword) the abstention step instead
returns the unknown-intent tag with no entities: `"hello"` reaches
abstention (the classifier returns no candidates) yet yields neither
fallback tag and `entities = None`. -/
theorem c4_short_abstention_unknown :
    classifyIntent noSemanticEnv {} "hello" none = [] ∧
    process noSemanticEnv 0 {} {} "hello" none =
      .ok ({ last_interaction_time := 0 }, (some "[UNKNOWN_INTENT]", none, none)) ∧
    (some "[UNKNOWN_INTENT]" : Option String) ≠ some "[WRITE_CODE]" ∧
    (some "[UNKNOWN_INTENT]" : Option String) ≠ some "[EXECUTE_DYNAMIC_TASK]" ∧
    (none : Option Entities) ≠ some [("query", "hello")] := by
  exact ⟨rfl, rfl, by decide, by decide, by decide⟩

/-- C4 amended: whenever the cascade reaches the abstention step — the
classifier returned no candidates, or it returned candidates whose top
score is below MIN_CONFIDENCE_THRESHOLD and no ambiguity prompt was issued
(single candidate, or a runner-up at least AMBIGUITY_THRESHOLD behind) —
`process` returns the write-code tag with the whole text as query entity
if a code keyword occurs in the text, else the dynamic-task tag with the
whole text as query entity if the text has 5 or more words, else the
unknown-intent tag with no entities. In particular a 5-or-more-word input
with the encoder unavailable and no keyword match yields the dynamic-task
fallback with the original text as query. -/
theorem c4_abstention_amended (env : Env) (now : ℚ) (s : Settings) (st : NluState)
    (text : String) (ctx : Option String)
    (hconv : st.conversation_state = none)
    (habst : classifyIntent env s text ctx = [] ∨
      ∃ I1 s1 rest, classifyIntent env s text ctx = (I1, s1) :: rest ∧
        s1 < MIN_CONFIDENCE_THRESHOLD ∧
        (rest = [] ∨ ∃ I2 s2 rest2, rest = (I2, s2) :: rest2 ∧
          AMBIGUITY_THRESHOLD ≤ s1 - s2)) :
    (hasWriteKeyword text = true →
      ∃ st', process env now s st text ctx =
        .ok (st', (some "[WRITE_CODE]", some [("query", text)], none))) ∧
    (hasWriteKeyword text = false → (pySplit text).length > 4 →
      ∃ st', process env now s st text ctx =
        .ok (st', (some "[EXECUTE_DYNAMIC_TASK]", some [("query", text)], none))) ∧
    (hasWriteKeyword text = false → ¬ (pySplit text).length > 4 →
      ∃ st', process env now s st text ctx =
        .ok (st', (some "[UNKNOWN_INTENT]", none, none))) := by
  have hproc := process_conv_none env now s st text ctx hconv
  have hfb : process env now s st text ctx =
      fallback env now s (clearExpiredMemory now { st with last_interaction_time := now })
        text := by
    rcases habst with hnil | ⟨I1, s1, rest, hcl, hmin, hnoamb⟩
    · rw [hproc, hnil]
    · rw [hproc, hcl]
      dsimp only
      have hminhigh : MIN_CONFIDENCE_THRESHOLD ≤ HIGH_CONFIDENCE_THRESHOLD := by decide
      rw [if_neg (not_le.mpr (lt_of_lt_of_le hmin hminhigh))]
      rcases hnoamb with rfl | ⟨I2, s2, rest2, rfl, hmargin⟩
      · dsimp only
        unfold lowConfidenceOrFallback
        rw [if_neg (not_le.mpr hmin)]
      · dsimp only
        rw [if_neg (not_lt.mpr hmargin)]
        unfold lowConfidenceOrFallback
        rw [if_neg (not_le.mpr hmin)]
  obtain ⟨h1, h2, h3⟩ := fallback_eq env now s
    (clearExpiredMemory now { st with last_interaction_time := now }) text
  refine ⟨?_, ?_, ?_⟩
  · intro hw
    exact ⟨_, by rw [hfb]; exact h1 hw⟩
  · intro hw hlen
    exact ⟨_, by rw [hfb]; exact h2 hw hlen⟩
  · intro hw hlen
    exact ⟨_, by rw [hfb]; exact h3 hw hlen⟩

/-- C4 amended witness: the same five-word utterance through both entry
routes of the abstention step — encoder unavailable with nothing
configured (classifier returns no candidates), and a single semantic
candidate scoring 2/5, below MIN_CONFIDENCE_THRESHOLD with no runner-up —
both resolve to the dynamic-task fallback carrying the whole text as
query. -/
theorem c4_abstention_amended_witness :
    (∃ st', process noSemanticEnv 0 {} {} "please summarize my unread emails" none =
      .ok (st', (some "[EXECUTE_DYNAMIC_TASK]",
                 some [("query", "please summarize my unread emails")], none))) ∧
    (∃ st', process lowScoreEnv 0 lowConfidenceSettings {}
        "please summarize my unread emails" none =
      .ok (st', (some "[EXECUTE_DYNAMIC_TASK]",
                 some [("query", "please summarize my unread emails")], none))) :=
  ⟨(c4_abstention_amended noSemanticEnv 0 {} {} "please summarize my unread emails" none
      rfl (Or.inl rfl)).2.1 rfl (by decide),
   (c4_abstention_amended lowScoreEnv 0 lowConfidenceSettings {}
      "please summarize my unread emails" none rfl
      (Or.inr ⟨"SET_TIMER", mkRat 2 5, [], rfl, by decide, Or.inl rfl⟩)).2.1
    rfl (by decide)⟩

/-- C5 counterexample: with paranoid mode enabled and the store defining
`WRITE_CODE` itself as `is_high_risk = true`, the keyword fallback still
returns `"[WRITE_CODE]"` — the filtering only guards the classifier, not
the hard-coded fallback path, so a high-risk-flagged intent is returned. -/
theorem c5_paranoid_fallback_high_risk :
    process noSemanticEnv 0 paranoidWriteCodeSettings {} "write hello world" none =
      .ok ({ last_interaction_time := 0 },
           (some "[WRITE_CODE]", some [("query", "write hello world")], none)) ∧
    paranoidWriteCodeSettings.core.paranoid_mode_enabled = true ∧
    paranoidWriteCodeSettings.intents.lookup "WRITE_CODE" =
      some { canonical := "write some code", is_high_risk := true } ∧
    ({ canonical := "write some code", is_high_risk := true } : Intent).is_high_risk = true := by
  exact ⟨rfl, rfl, by decide, rfl⟩

/-- C5 amended: with paranoid mode on, no dialogue active and empty
short-term memory, every intent tag `process` returns wraps either one of
the three hard-coded names (`WRITE_CODE`, `EXECUTE_DYNAMIC_TASK`,
`UNKNOWN_INTENT`, emitted by the fallback block regardless of any
`is_high_risk` flag on identically named definitions) or a classifier
candidate — and classifier candidates never carry a high-risk definition. -/
theorem c5_paranoid_filter_amended (env : Env) (now : ℚ) (s : Settings) (st : NluState)
    (text : String) (ctx : Option String)
    (hp : s.core.paranoid_mode_enabled = true)
    (hnodup : (s.intents.map Prod.fst).Nodup)
    (hconv : st.conversation_state = none)
    (hmem : st.memory = none) :
    ∀ (st' : NluState) (tag : String) (ents : Option Entities) (pr : Option String),
      process env now s st text ctx = .ok (st', (some tag, ents, pr)) →
      ∃ I, tag = "[" ++ I ++ "]" ∧
        (I = "WRITE_CODE" ∨ I = "EXECUTE_DYNAMIC_TASK" ∨ I = "UNKNOWN_INTENT" ∨
          ((∃ sc, (I, sc) ∈ classifyIntent env s text ctx) ∧
            ∀ d : Intent, (I, d) ∈ s.intents → d.is_high_risk = false)) := by
  intro st' tag ents pr hres
  have hm2 : (clearExpiredMemory now { st with last_interaction_time := now }).memory = none := by
    rw [clearExpiredMemory_memory_none]
    · exact hmem
    · exact hmem
  rw [process_conv_none env now s st text ctx hconv] at hres
  have hclass : ∀ I : String, tag = "[" ++ I ++ "]" →
      (∃ sc, (I, sc) ∈ classifyIntent env s text ctx) →
      ∃ I2, tag = "[" ++ I2 ++ "]" ∧
        (I2 = "WRITE_CODE" ∨ I2 = "EXECUTE_DYNAMIC_TASK" ∨ I2 = "UNKNOWN_INTENT" ∨
          ((∃ sc, (I2, sc) ∈ classifyIntent env s text ctx) ∧
            ∀ d : Intent, (I2, d) ∈ s.intents → d.is_high_risk = false)) := by
    rintro I htag ⟨sc, hmemI⟩
    exact ⟨I, htag, Or.inr (Or.inr (Or.inr ⟨⟨sc, hmemI⟩,
      classify_not_high_risk hp hnodup hmemI⟩))⟩
  rcases hc : classifyIntent env s text ctx with _ | ⟨⟨top, score⟩, rest⟩
  · rw [hc] at hres
    dsimp only at hres
    rcases fallback_tags _ _ _ _ _ hm2 hres with h | h | h
    · exact ⟨"WRITE_CODE", h, Or.inl rfl⟩
    · exact ⟨"EXECUTE_DYNAMIC_TASK", h, Or.inr (Or.inl rfl)⟩
    · exact ⟨"UNKNOWN_INTENT", h, Or.inr (Or.inr (Or.inl rfl))⟩
  · rw [hc] at hres
    dsimp only at hres
    rw [← hc]
    split at hres
    · injection hres with h1
      have h2 := congrArg (fun x => x.2.1) h1
      dsimp only at h2
      rw [processIntent_tag_of_memory_none _ _ _ _ _ _ hm2] at h2
      injection h2 with h3
      exact hclass top h3.symm ⟨score, hc ▸ List.mem_cons_self _ _⟩
    · rcases rest with _ | ⟨⟨sec, secScore⟩, rest2⟩
      · rcases lowConf_tags _ _ _ _ _ _ _ hm2 hres with h | h | h | h
        · exact hclass top h ⟨score, hc ▸ List.mem_cons_self _ _⟩
        · exact ⟨"WRITE_CODE", h, Or.inl rfl⟩
        · exact ⟨"EXECUTE_DYNAMIC_TASK", h, Or.inr (Or.inl rfl)⟩
        · exact ⟨"UNKNOWN_INTENT", h, Or.inr (Or.inr (Or.inl rfl))⟩
      · dsimp only at hres
        split at hres
        · injection hres with h1
          have h2 := congrArg (fun x => x.2.1) h1
          dsimp only at h2
          exact Option.noConfusion h2
        · rcases lowConf_tags _ _ _ _ _ _ _ hm2 hres with h | h | h | h
          · exact hclass top h ⟨score, hc ▸ List.mem_cons_self _ _⟩
          · exact ⟨"WRITE_CODE", h, Or.inl rfl⟩
          · exact ⟨"EXECUTE_DYNAMIC_TASK", h, Or.inr (Or.inl rfl)⟩
          · exact ⟨"UNKNOWN_INTENT", h, Or.inr (Or.inr (Or.inl rfl))⟩

/-- C5 amended witness: paranoid mode with a high-risk `WRITE_CODE`
definition and the short utterance `"hello there"`; the returned tag is
`"[UNKNOWN_INTENT]"`, covered by the hard-coded-name disjunct. -/
theorem c5_paranoid_filter_amended_witness :
    ∃ I, "[UNKNOWN_INTENT]" = "[" ++ I ++ "]" ∧
      (I = "WRITE_CODE" ∨ I = "EXECUTE_DYNAMIC_TASK" ∨ I = "UNKNOWN_INTENT" ∨
        ((∃ sc, (I, sc) ∈
            classifyIntent noSemanticEnv paranoidWriteCodeSettings "hello there" none) ∧
          ∀ d : Intent, (I, d) ∈ paranoidWriteCodeSettings.intents →
            d.is_high_risk = false)) :=
  c5_paranoid_filter_amended noSemanticEnv 0 paranoidWriteCodeSettings {} "hello there" none
    rfl (by decide) rfl rfl { last_interaction_time := 0 } "[UNKNOWN_INTENT]" none none rfl

/-- C6: if the classifier returns at least two candidates whose top score
is below HIGH_CONFIDENCE_THRESHOLD and within AMBIGUITY_THRESHOLD of the
runner-up, `process` returns `(None, None, prompt)` where the prompt names
both candidates, and afterwards a session in `AWAITING_AMBIGUITY_RESOLUTION`
holds the original text and both candidates — no dispatch happens on that
call. -/
theorem c6_ambiguity_prompt (env : Env) (now : ℚ) (s : Settings) (st : NluState)
    (text : String) (ctx : Option String) (I1 I2 : String) (s1 s2 : ℚ)
    (rest : List (String × ℚ))
    (hconv : st.conversation_state = none)
    (hcl : classifyIntent env s text ctx = (I1, s1) :: (I2, s2) :: rest)
    (hhigh : s1 < HIGH_CONFIDENCE_THRESHOLD)
    (hmargin : s1 - s2 < AMBIGUITY_THRESHOLD) :
    process env now s st text ctx =
      .ok ({ clearExpiredMemory now { st with last_interaction_time := now } with
              conversation_state := some "AWAITING_AMBIGUITY_RESOLUTION"
              conversation_data := { original_text := some text,
                                     candidates := [(I1, s1), (I2, s2)] } },
           (none, none,
            some ("Did you mean " ++ lowerStr (pyReplace I1 "_" " ") ++ ", or " ++
                  lowerStr (pyReplace I2 "_" " ") ++ "?"))) := by
  rw [process_conv_none env now s st text ctx hconv, hcl]
  dsimp only
  rw [if_neg (not_le.mpr hhigh), if_pos hmargin]

/-- C6 witness: two context-free intents with close sub-threshold scores
(3/5 and 11/20) produce the ambiguity prompt and session. -/
theorem c6_ambiguity_prompt_witness :
    process twoCandidateEnv 0 twoIntentSettings {} "toggle the application" none =
      .ok ({ clearExpiredMemory 0 { ({} : NluState) with last_interaction_time := 0 } with
              conversation_state := some "AWAITING_AMBIGUITY_RESOLUTION"
              conversation_data := { original_text := some "toggle the application",
                                     candidates := [("OPEN_APP", mkRat 3 5),
                                                    ("CLOSE_APP", mkRat 11 20)] } },
           (none, none,
            some ("Did you mean " ++ lowerStr (pyReplace "OPEN_APP" "_" " ") ++ ", or " ++
                  lowerStr (pyReplace "CLOSE_APP" "_" " ") ++ "?"))) :=
  c6_ambiguity_prompt twoCandidateEnv 0 twoIntentSettings {} "toggle the application" none
    "OPEN_APP" "CLOSE_APP" (mkRat 3 5) (mkRat 11 20) [] rfl rfl (by decide) (by decide)

/-- C8: an intent whose non-empty `contexts` set does not contain the
context of the call never appears in the classifier output, on either the
exact-keyword or the semantic tier, whatever scores the encoder assigns. -/
theorem c8_context_gating (env : Env) (s : Settings) (text : String) (ctx : Option String)
    (A : String) (d : Intent)
    (hnodup : (s.intents.map Prod.fst).Nodup)
    (hmem : (A, d) ∈ s.intents)
    (hne : d.contexts ≠ [])
    (hctx : ∀ c, ctx = some c → c ∉ d.contexts) :
    ∀ sc : ℚ, (A, sc) ∉ classifyIntent env s text ctx := by
  intro sc h
  obtain ⟨d', hd'⟩ := mem_classify_applicable h
  obtain ⟨hsafe, hcase⟩ := mem_applicableIntents hd'
  have hmem' := mem_safeIntents hsafe
  have hdd : d' = d := nodupKeys_unique hnodup hmem' hmem
  rcases hcase with hempty | ⟨c, hceq, hcmem⟩
  · rw [hdd] at hempty
    exact hne hempty
  · rw [hdd] at hcmem
    exact hctx c hceq hcmem

/-- C8 witness: `A_INTENT` is restricted to `appX`; with call context
`appY` it is absent from the classifier output even though its keyword
occurs in the text and the encoder would rank it first. -/
theorem c8_context_gating_witness :
    ("A_INTENT", (1 : ℚ)) ∉
      classifyIntent twoCandidateEnv contextRestrictedSettings "hello friend" (some "appY") :=
  c8_context_gating twoCandidateEnv contextRestrictedSettings "hello friend" (some "appY")
    "A_INTENT" { keywords := ["hello"], canonical := "hi there", contexts := ["appX"] }
    (by decide) (by decide) (by decide)
    (fun c hc => by injection hc with h; rw [← h]; decide) 1

/-- C10: follow-up cue detection is raw substring containment over the
lower-cased utterance (first conjunct characterizes it as list-infix
membership of a cue; second shows `"it"` fires inside `"write"`), and in
`process_intent`, whenever the leading resolution produced no entities, a
cue is present and short-term memory is populated, the stored entities are
returned in place of fresh extraction — and for the unknown-intent tag the
stored intent replaces the fresh classification as well. -/
theorem c10_follow_up_substring_memory :
    (∀ text : String, isFollowUp text = true ↔
      ∃ k ∈ FOLLOW_UP_KEYWORDS, k.toList <:+: (lowerStr text).toList) ∧
    isFollowUp "write" = true ∧
    (∀ (env : Env) (now : ℚ) (s : Settings) (st : NluState) (intent text : String)
        (m : MemoryRec),
      st.memory = some m →
      (baseResolution env now s st intent text).1 = none →
      isFollowUp text = true →
      (processIntent env now s st intent text).2.2.1 = some m.entities ∧
      (processIntent env now s st intent text).2.1 =
        some ("[" ++ (if intent == "UNKNOWN_INTENT" then m.intent else intent) ++ "]")) := by
  refine ⟨?_, by decide, ?_⟩
  · intro text
    simp only [isFollowUp, List.any_eq_true, substrOf, seqContains_iff_isInfix]
  · intro env now s st intent text m hmem hbase hfu
    have hm1 : (baseResolution env now s st intent text).2.2.memory = some m := by
      rw [baseResolution_memory]
      exact hmem
    simp only [processIntent]
    rw [hbase, hm1, hfu]
    dsimp only [entTruthy]
    exact ⟨rfl, rfl⟩

/-- C10 witness: with stored memory intent `OPEN_APP` and entities
`{entity: chrome}`, the unknown-intent resolution of `"do it"` (cue `"it"`)
returns the stored entities and the stored intent tag. -/
theorem c10_follow_up_substring_memory_witness :
    (processIntent noSemanticEnv 1 {} memoryDemoState "UNKNOWN_INTENT" "do it").2.2.1 =
      some [("entity", "chrome")] ∧
    (processIntent noSemanticEnv 1 {} memoryDemoState "UNKNOWN_INTENT" "do it").2.1 =
      some "[OPEN_APP]" := by
  have h := c10_follow_up_substring_memory.2.2 noSemanticEnv 1 {} memoryDemoState
    "UNKNOWN_INTENT" "do it"
    { intent := "OPEN_APP", entities := [("entity", "chrome")], timestamp := 0 } rfl rfl rfl
  exact ⟨h.1, h.2⟩

end Kairos
